import Mathlib

/-!
Verification of the LLM-Batch repository's core pipeline against its
natural-language specification.

The development shallowly embeds the Python source:

* a `Json` value type together with a model of `json.loads` and of the
  dynamically-typed accesses (`x[k]`, `k in x`, truthiness) that the code
  performs on decoded response bodies, with Python exceptions made explicit
  through `Except`;
* `UniversalLLMProvider` (src/providers/universal_llm.py): response
  classification, the markdown-fence / whole-content extraction chain,
  and the retry/backoff recursion, as a trace of HTTP posts and sleeps;
* `AliyunProvider` (src/providers/aliyun.py): its retry branch;
* the round-2 script (llm_batch_call_round2.py): `estimate_tokens`,
  `check_input_length`, `parse_llm_response` and the retry loop of
  `deepseek_request_async`;
* `BatchProcessor._process_single_file` (src/core/processor.py): the
  per-record classification of gathered results, the success/raw/error
  output streams, the header policy of `csv.DictWriter`, and the progress
  checkpointing loop.

All definitions are executable; theorems at the end settle the frozen
claims about the specification.
-/

namespace LLMBatch

/-- Python exceptions that the embedded code can raise. -/
inductive PyErr where
  | typeError
  | keyError
  | indexError
  | valueError
  | attributeError
  deriving Repr, DecidableEq

/-- JSON values: the data decoded from response bodies and produced by the
providers (Python `None` / `bool` / `int` / `str` / `list` / `dict`). -/
inductive Json where
  | str (s : String)
  | num (n : Int)
  | bool (b : Bool)
  | null
  | arr (xs : List Json)
  | obj (kvs : List (String × Json))
  deriving Repr

/-- Python `x == s` between a decoded value and a string: only an equal
string compares equal, every other value compares unequal without an
error.  The code only ever compares decoded values against string
literals, so no recursive equality is needed. -/
def Json.eqStr (j : Json) (s : String) : Bool :=
  match j with
  | .str t => t = s
  | _ => false

/-- Python `x is None` on a decoded value. -/
def Json.isNull : Json → Bool
  | .null => true
  | _ => false

/-- Python truthiness of a value (`if x:`). -/
def pyTruthy : Json → Bool
  | .null => false
  | .bool b => b
  | .num n => n != 0
  | .str s => s != ""
  | .arr xs => !xs.isEmpty
  | .obj kvs => !kvs.isEmpty

/-- First binding of a key in an object's association list (Python dicts hold
each key once; the decoded objects we model keep the first occurrence). -/
def jsonLookup (kvs : List (String × Json)) (k : String) : Option Json :=
  match kvs.find? (fun kv => kv.1 = k) with
  | some kv => some kv.2
  | none => none

/-- Python `k in x` for a string key: dict key test, list membership,
substring test on strings; a `TypeError` otherwise. -/
def pyContains (k : String) : Json → Except PyErr Bool
  | .obj kvs => .ok ((jsonLookup kvs k).isSome)
  | .arr xs => .ok (xs.any fun j => j.eqStr k)
  | .str s => .ok ((s.splitOn k).length > 1)
  | _ => .error .typeError

/-- Python `x[k]` with a string key: dict lookup (`KeyError` when absent),
`TypeError` on every other value. -/
def pyGetStr (j : Json) (k : String) : Except PyErr Json :=
  match j with
  | .obj kvs =>
    match jsonLookup kvs k with
    | some v => .ok v
    | none => .error .keyError
  | _ => .error .typeError

/-- Python `x[i]` with a non-negative integer index: list indexing
(`IndexError` when out of range), one-character string for strings,
`KeyError` for dicts (whose keys here are strings), `TypeError` otherwise. -/
def pyGetIdx (j : Json) (i : Nat) : Except PyErr Json :=
  match j with
  | .arr xs =>
    match xs.get? i with
    | some v => .ok v
    | none => .error .indexError
  | .str s =>
    match s.data.get? i with
    | some c => .ok (.str (String.mk [c]))
    | none => .error .indexError
  | .obj _ => .error .keyError
  | _ => .error .typeError

/-- Python `x.get(k)` on a dict: the value when present, `None` otherwise
(`AttributeError` on non-dicts). -/
def pyDictGet (j : Json) (k : String) : Except PyErr Json :=
  match j with
  | .obj kvs => .ok ((jsonLookup kvs k).getD .null)
  | _ => .error .attributeError

/-- Python `list(x.keys())` on a dict (`AttributeError` on non-dicts). -/
def pyKeys (j : Json) : Except PyErr (List String) :=
  match j with
  | .obj kvs => .ok (kvs.map (·.1))
  | _ => .error .attributeError

/-! ### A model of `json.loads`

A recursive-descent parser for the JSON grammar accepted by Python's
`json.loads` (objects, arrays, double-quoted strings without escape
sequences, integers, `true`/`false`/`null`), requiring the whole input to
be consumed apart from surrounding whitespace — exactly the behaviour that
makes `json.loads` reject content with leading or trailing prose. -/

/-- JSON insignificant whitespace. -/
def isJsonWs (c : Char) : Bool :=
  c = ' ' || c = '\t' || c = '\n' || c = '\r'

/-- Skip leading whitespace. -/
def skipWs : List Char → List Char
  | c :: cs => if isJsonWs c then skipWs cs else c :: cs
  | [] => []

/-- Parse the body of a double-quoted string after the opening quote
(escape sequences are not modelled; none of the analysed payloads use
them). Returns the string and the input after the closing quote. -/
def parseStringBody : List Char → Option (String × List Char)
  | '"' :: cs => some ("", cs)
  | '\\' :: _ => none
  | c :: cs => do
    let (s, rest) ← parseStringBody cs
    pure (String.mk (c :: s.data), rest)
  | [] => none

/-- Leading decimal digits of the input. -/
def takeDigits : List Char → (List Char × List Char)
  | c :: cs =>
    if c.isDigit then
      let (ds, rest) := takeDigits cs
      (c :: ds, rest)
    else ([], c :: cs)
  | [] => ([], [])

/-- Numeric value of a digit list. -/
def digitsVal : List Char → Nat
  | [] => 0
  | ds => ds.foldl (fun acc c => acc * 10 + (c.toNat - '0'.toNat)) 0

mutual

/-- Parse one JSON value at the head of the input (fuelled recursion;
fuel larger than the input length never runs out). -/
def parseVal : Nat → List Char → Option (Json × List Char)
  | 0, _ => none
  | fuel + 1, cs =>
    match skipWs cs with
    | '{' :: rest =>
      match skipWs rest with
      | '}' :: rest' => some (.obj [], rest')
      | rest' => parseObjItems fuel rest' []
    | '[' :: rest =>
      match skipWs rest with
      | ']' :: rest' => some (.arr [], rest')
      | rest' => parseArrItems fuel rest' []
    | '"' :: rest => do
      let (s, rest') ← parseStringBody rest
      pure (.str s, rest')
    | 't' :: 'r' :: 'u' :: 'e' :: rest => some (.bool true, rest)
    | 'f' :: 'a' :: 'l' :: 's' :: 'e' :: rest => some (.bool false, rest)
    | 'n' :: 'u' :: 'l' :: 'l' :: rest => some (.null, rest)
    | '-' :: rest =>
      match takeDigits rest with
      | ([], _) => none
      | (ds, rest') => some (.num (-(digitsVal ds : Int)), rest')
    | c :: rest =>
      if c.isDigit then
        match takeDigits (c :: rest) with
        | (ds, rest') => some (.num (digitsVal ds : Int), rest')
      else none
    | [] => none

/-- Parse the members of an object after `{` (the first key is at the
head), accumulating parsed bindings. -/
def parseObjItems : Nat → List Char → List (String × Json) → Option (Json × List Char)
  | 0, _, _ => none
  | fuel + 1, cs, acc =>
    match skipWs cs with
    | '"' :: rest => do
      let (k, rest₁) ← parseStringBody rest
      match skipWs rest₁ with
      | ':' :: rest₂ => do
        let (v, rest₃) ← parseVal fuel rest₂
        match skipWs rest₃ with
        | ',' :: rest₄ => parseObjItems fuel rest₄ (acc ++ [(k, v)])
        | '}' :: rest₄ => pure (.obj (acc ++ [(k, v)]), rest₄)
        | _ => none
      | _ => none
    | _ => none

/-- Parse the elements of an array after `[` (the first element is at the
head), accumulating parsed values. -/
def parseArrItems : Nat → List Char → List Json → Option (Json × List Char)
  | 0, _, _ => none
  | fuel + 1, cs, acc => do
    let (v, rest) ← parseVal fuel cs
    match skipWs rest with
    | ',' :: rest' => parseArrItems fuel rest' (acc ++ [v])
    | ']' :: rest' => pure (.arr (acc ++ [v]), rest')
    | _ => none

end

/-- Model of `json.loads`: parse the whole input as one JSON value; `none` models a
raised `json.JSONDecodeError` (for example on surrounding prose). -/
def json_loads (s : String) : Option Json :=
  match parseVal (s.length + 1) s.data with
  | some (v, rest) => if (skipWs rest).isEmpty then some v else none
  | none => none

/-! ### Markdown fence extraction

`universal_llm.py` and `processor.py` look for a fenced code block with
`re.search(r'\x60\x60\x60(?:json)?\s*(.*?)\s*\x60\x60\x60', content, re.DOTALL)`:
the match starts at the first fence, optionally consumes a `json` tag and
whitespace, and the lazy group ends at the next fence; the extracted group
is then stripped. -/

/-- Does `p` occur at the head of `cs`? -/
def isPrefixList : List Char → List Char → Bool
  | [], _ => true
  | _ :: _, [] => false
  | p :: ps, c :: cs => p = c && isPrefixList ps cs

/-- Input after the first occurrence of a triple backtick, `none` when
there is no fence. -/
def afterFence : List Char → Option (List Char)
  | [] => none
  | c :: cs =>
    if isPrefixList "```".data (c :: cs) then some (cs.drop 2)
    else afterFence cs

/-- Characters before the first occurrence of a triple backtick, `none`
when the closing fence is missing. -/
def beforeFence : List Char → Option (List Char)
  | [] => none
  | c :: cs =>
    if isPrefixList "```".data (c :: cs) then some []
    else do
      let body ← beforeFence cs
      pure (c :: body)

/-- Strip leading and trailing whitespace (Python `str.strip()`). -/
def stripWs (cs : List Char) : List Char :=
  (skipWs (skipWs cs).reverse).reverse

/-- The fenced code-block payload of `content`, stripped, when the fence
regex matches; `none` when it does not. -/
def fenceExtract (content : String) : Option String :=
  match afterFence content.data with
  | none => none
  | some rest =>
    let rest := if isPrefixList "json".data rest then rest.drop 4 else rest
    let rest := skipWs rest
    match beforeFence rest with
    | some body => some (String.mk (stripWs body))
    | none => none

/-! ### `UniversalLLMProvider._parse_success_response`
(src/providers/universal_llm.py, lines 125–162) -/

/-- The content-extraction chain of `_parse_success_response`: when a
markdown fence is present its payload is parsed as JSON and a failure
inside the fence is terminal (`return None`); otherwise the whole content
is parsed. There is no further fallback. -/
def uni_extract_chain (content : String) : Option Json :=
  match fenceExtract content with
  | some json_content => json_loads json_content
  | none => json_loads content

/-- Body of `_parse_success_response` (everything inside its `try`),
with the Python exceptions of the dynamic accesses made explicit:
check `'choices' not in result or not result['choices']`, extract
`result['choices'][0]['message']['content']`, then run the extraction
chain (`re.search` on a non-string content raises `TypeError`). -/
def parse_success_body (result : Json) : Except PyErr (Option Json) := do
  let hasChoices ← pyContains "choices" result
  if !hasChoices then
    return none
  let choices ← pyGetStr result "choices"
  if !(pyTruthy choices) then
    return none
  let first ← pyGetIdx choices 0
  let message ← pyGetStr first "message"
  let content ← pyGetStr message "content"
  match content with
  | .str s => return uni_extract_chain s
  | _ => .error .typeError

/-- The function `_parse_success_response`: the body wrapped in its catch-all
`except Exception: return None`. -/
def parse_success_response (result : Json) : Except PyErr (Option Json) :=
  match parse_success_body result with
  | .ok o => .ok o
  | .error _ => .ok none

/-! ### Provider dispatch as a trace of effects

A dispatch is driven by an environment `ev : Nat → HttpEvent` giving, for
each value of `retry_count` (equivalently, for each attempt), either the
HTTP response or a transport exception.  Running a provider yields its
Python return value together with the list of observable actions:
`session.post` calls and `asyncio.sleep` delays, in order. -/

/-- Outcome of one HTTP attempt. -/
inductive HttpEvent where
  | resp (status : Nat) (body : Json)
  | exn (msg : String)
  deriving Repr

/-- Observable effects of a dispatch. -/
inductive Action where
  | post (system_content user_content : String)
  | sleep (delay : ℚ)
  deriving Repr, DecidableEq

/-- Number of HTTP requests in a trace. -/
def postsCount (tr : List Action) : Nat :=
  (tr.filter fun a => match a with | .post _ _ => true | .sleep _ => false).length

/-- The sleep delays of a trace, in order. -/
def sleepDelays (tr : List Action) : List ℚ :=
  tr.filterMap fun a => match a with | .post _ _ => none | .sleep d => some d

/-- The methods `UniversalLLMProvider.process_request` / `_handle_response` /
`_handle_retry` (src/providers/universal_llm.py, lines 51–185), as one
recursion on `retry_count`:

* status 200: parse via `_parse_success_response`; were parsing to raise,
  `process_request`'s `except` would route to `_handle_retry`;
* status in `[429, 503, 502, 504]`: `_handle_retry` — if
  `retry_count < max_retries`, sleep `min(2 ** retry_count *
  retry_interval, 10)` and recurse with `retry_count + 1`, else `None`;
* any other status: `None` immediately;
* a request exception: `_handle_retry` as above. -/
def uni_process_request (max_retries : Nat) (retry_interval : ℚ)
    (ev : Nat → HttpEvent) (system_content user_content : String)
    (retry_count : Nat) : Option Json × List Action :=
  match ev retry_count with
  | .resp status body =>
    if status = 200 then
      match parse_success_response body with
      | .ok o => (o, [.post system_content user_content])
      | .error _ =>
        if h : retry_count < max_retries then
          let rest := uni_process_request max_retries retry_interval ev
            system_content user_content (retry_count + 1)
          (rest.1, .post system_content user_content ::
            .sleep (min (2 ^ retry_count * retry_interval) 10) :: rest.2)
        else (none, [.post system_content user_content])
    else if status = 429 ∨ status = 503 ∨ status = 502 ∨ status = 504 then
      if h : retry_count < max_retries then
        let rest := uni_process_request max_retries retry_interval ev
          system_content user_content (retry_count + 1)
        (rest.1, .post system_content user_content ::
          .sleep (min (2 ^ retry_count * retry_interval) 10) :: rest.2)
      else (none, [.post system_content user_content])
    else
      (none, [.post system_content user_content])
  | .exn _ =>
    if h : retry_count < max_retries then
      let rest := uni_process_request max_retries retry_interval ev
        system_content user_content (retry_count + 1)
      (rest.1, .post system_content user_content ::
        .sleep (min (2 ^ retry_count * retry_interval) 10) :: rest.2)
    else (none, [.post system_content user_content])
termination_by max_retries - retry_count

/-! ### `AliyunProvider.process_request`
(src/providers/aliyun.py, lines 31–106) -/

/-- Python `len(x)` (`TypeError` on values without a length). -/
def pyLen : Json → Except PyErr Nat
  | .arr xs => .ok xs.length
  | .str s => .ok s.length
  | .obj kvs => .ok kvs.length
  | _ => .error .typeError

/-- The 200-branch of `AliyunProvider.process_request` (lines 53–74):
require a non-empty `choices`, extract the content, try `json.loads`, and
on a parse failure return the raw content itself; an exception inside the
inner content-handling `try` also returns the content.  An exception
raised by the extraction itself escapes to the outer handler. -/
def aliyun_parse_200 (body : Json) : Except PyErr (Option Json) := do
  let hasChoices ← pyContains "choices" body
  if hasChoices then
    let choices ← pyGetStr body "choices"
    let n ← pyLen choices
    if n > 0 then
      let first ← pyGetIdx choices 0
      let message ← pyGetStr first "message"
      let content ← pyGetStr message "content"
      let inner : Except PyErr (Option Json) :=
        match content with
        | .str s =>
          match json_loads s with
          | some v => .ok (some v)
          | none => .ok (some (.str s))
        | _ => .error .typeError
      match inner with
      | .ok v => return v
      | .error _ => return some content
    else
      return none
  else
    return none

/-- The method `AliyunProvider.process_request`: status 200 parses (an exception in
the branch reaches the outer handler, which retries with budget); statuses
`[429, 503]` retry with delay `min(2 ** retry_count * retry_interval, 10)`;
any other status returns `None` immediately; a request exception retries
with budget. -/
def aliyun_process_request (max_retries : Nat) (retry_interval : ℚ)
    (ev : Nat → HttpEvent) (system_content user_content : String)
    (retry_count : Nat) : Option Json × List Action :=
  match ev retry_count with
  | .resp status body =>
    if status = 200 then
      match aliyun_parse_200 body with
      | .ok o => (o, [.post system_content user_content])
      | .error _ =>
        if h : retry_count < max_retries then
          let rest := aliyun_process_request max_retries retry_interval ev
            system_content user_content (retry_count + 1)
          (rest.1, .post system_content user_content ::
            .sleep (min (2 ^ retry_count * retry_interval) 10) :: rest.2)
        else (none, [.post system_content user_content])
    else if status = 429 ∨ status = 503 then
      if h : retry_count < max_retries then
        let rest := aliyun_process_request max_retries retry_interval ev
          system_content user_content (retry_count + 1)
        (rest.1, .post system_content user_content ::
          .sleep (min (2 ^ retry_count * retry_interval) 10) :: rest.2)
      else (none, [.post system_content user_content])
    else
      (none, [.post system_content user_content])
  | .exn _ =>
    if h : retry_count < max_retries then
      let rest := aliyun_process_request max_retries retry_interval ev
        system_content user_content (retry_count + 1)
      (rest.1, .post system_content user_content ::
        .sleep (min (2 ^ retry_count * retry_interval) 10) :: rest.2)
    else (none, [.post system_content user_content])
termination_by max_retries - retry_count

/-! ### The round-2 script (llm_batch_call_round2.py) -/

/-- Function `estimate_tokens` (line 98): `len(text) // 3`. -/
def estimate_tokens (text : String) : Nat :=
  text.length / 3

/-- Function `check_input_length` (line 102): whether the combined estimate fits the
configured `max_input_tokens`, together with the estimate. -/
def check_input_length (system_prompt user_input : String)
    (max_input_tokens : Nat) : Bool × Nat :=
  let estimated_tokens := estimate_tokens system_prompt + estimate_tokens user_input
  (estimated_tokens ≤ max_input_tokens, estimated_tokens)

/-- Return value of `parse_llm_response`: either `(result, content)` or
`(None, {error_type, error_message})`. -/
inductive ParseRet where
  | ok (result : Json) (raw_content : String)
  | fail (error_type error_message : String)
  deriving Repr

/-- Python `all(field in result for field in required_fields)` with its
short-circuit evaluation. -/
def pyAllContains (ks : List String) (j : Json) : Except PyErr Bool :=
  match ks with
  | [] => .ok true
  | k :: rest => do
    let b ← pyContains k j
    if b then pyAllContains rest j else return false

/-- The validation schema of `parse_llm_response` (lines 602–606). -/
def required_fields : List String :=
  ["法院所在地区", "法院类型", "原告名称", "原告注册地",
   "被告名称", "被告注册地", "判决结果", "胜诉方",
   "判决依据条款数目", "判断案件受理费金额"]

/-- The admissible values of `判决结果` (line 616). -/
def valid_results : List String :=
  ["支持", "驳回", "部分支持", "调解结案", "中止审理"]

/-- Index of the first occurrence of `c` (`str.find`, `none` for `-1`). -/
def strFind (s : String) (c : Char) : Option Nat :=
  s.data.findIdx? (· = c)

/-- Index of the last occurrence of `c` (`str.rfind`, `none` for `-1`). -/
def strRFind (s : String) (c : Char) : Option Nat :=
  match (s.data.reverse.findIdx? (· = c)) with
  | some i => some (s.length - 1 - i)
  | none => none

/-- Body of `parse_llm_response` (lines 582–643): reject falsy responses
and missing `choices`; extract the content; reject empty content; parse
the whole content and validate the required fields and the judgment enum;
on a `JSONDecodeError`, extract the substring from the first `{` to the
last `}` and parse that without any validation. -/
def parse_llm_body (response : Json) : Except PyErr ParseRet := do
  if !(pyTruthy response) then
    return .fail "InvalidResponse" "无效的响应"
  let hasChoices ← pyContains "choices" response
  if !hasChoices then
    return .fail "InvalidResponse" "无效的响应"
  let choices ← pyGetStr response "choices"
  let first ← pyGetIdx choices 0
  let message ← pyGetStr first "message"
  let content ← pyGetStr message "content"
  if !(pyTruthy content) then
    return .fail "EmptyContent" "响应内容为空"
  match content with
  | .str s =>
    match json_loads s with
    | some result =>
      let allPresent ← pyAllContains required_fields result
      if !allPresent then
        return .fail "MissingFields" "缺少必要字段"
      let judgment ← pyGetStr result "判决结果"
      if !(valid_results.any fun v => judgment.eqStr v) then
        return .fail "InvalidJudgmentResult" "判决结果不在允许的值列表中"
      return .ok result s
    | none =>
      match strFind s '{', strRFind s '}' with
      | some json_start, some json_end =>
        let json_str := String.mk ((s.data.drop json_start).take (json_end + 1 - json_start))
        match json_loads json_str with
        | some result => return .ok result s
        | none => return .fail "JSONParseError" "JSON解析失败"
      | _, _ => return .fail "NoJSONFound" "响应中未找到JSON"
  | _ => .error .typeError

/-- The function `parse_llm_response`: the body wrapped in its catch-all
`except Exception: return None, {"error_type": "UnexpectedError", ...}`. -/
def parse_llm_response (response : Json) : ParseRet :=
  match parse_llm_body response with
  | .ok r => r
  | .error _ => .fail "UnexpectedError" "解析响应时发生错误"

/-- Return value of `deepseek_request_async`: a success pair, an error
pair, or the implicit `None` when `range(max_retries)` is empty. -/
inductive R2Out where
  | success (parsed : Json) (raw_content : String)
  | failure (error_type error_message : String)
  | fallthrough
  deriving Repr

/-- The `for attempt in range(max_retries)` loop of
`deepseek_request_async` (lines 508–580): a non-200 status, an empty
decoded body, a parse failure, or a request exception each sleep
`min(2 ** attempt * sleep_time, 10)` and move to the next attempt while
`attempt < max_retries - 1`, and otherwise return the corresponding
error pair; a parsed response returns the success pair. -/
def r2_attempt_loop (max_retries : Nat) (sleep_time : ℚ)
    (ev : Nat → HttpEvent) (system_content user_content : String)
    (attempt : Nat) : R2Out × List Action :=
  if _h : attempt < max_retries then
    match ev attempt with
    | .resp status body =>
      if status ≠ 200 then
        if attempt < max_retries - 1 then
          let rest := r2_attempt_loop max_retries sleep_time ev
            system_content user_content (attempt + 1)
          (rest.1, .post system_content user_content ::
            .sleep (min (2 ^ attempt * sleep_time) 10) :: rest.2)
        else (.failure "APIError" "状态码非200", [.post system_content user_content])
      else if !(pyTruthy body) then
        if attempt < max_retries - 1 then
          let rest := r2_attempt_loop max_retries sleep_time ev
            system_content user_content (attempt + 1)
          (rest.1, .post system_content user_content ::
            .sleep (min (2 ^ attempt * sleep_time) 10) :: rest.2)
        else (.failure "EmptyResponse" "API返回空响应", [.post system_content user_content])
      else
        match parse_llm_response body with
        | .ok parsed raw =>
          (.success parsed raw, [.post system_content user_content])
        | .fail _ _ =>
          if attempt < max_retries - 1 then
            let rest := r2_attempt_loop max_retries sleep_time ev
              system_content user_content (attempt + 1)
            (rest.1, .post system_content user_content ::
              .sleep (min (2 ^ attempt * sleep_time) 10) :: rest.2)
          else (.failure "ParseError" "解析响应失败", [.post system_content user_content])
    | .exn msg =>
      if attempt < max_retries - 1 then
        let rest := r2_attempt_loop max_retries sleep_time ev
          system_content user_content (attempt + 1)
        (rest.1, .post system_content user_content ::
          .sleep (min (2 ^ attempt * sleep_time) 10) :: rest.2)
      else (.failure "RequestError" msg, [.post system_content user_content])
  else
    (.fallthrough, [])
termination_by max_retries - attempt

/-- Function `deepseek_request_async` (lines 496–580): the pre-flight token guard
followed by the attempt loop.  When `check_input_length` rejects the
input, the error pair is returned before any request is made. -/
def deepseek_request_async (max_retries : Nat) (sleep_time : ℚ)
    (max_input_tokens : Nat) (ev : Nat → HttpEvent)
    (content user_content : String) : R2Out × List Action :=
  let check := check_input_length content user_content max_input_tokens
  if !check.1 then
    (.failure "TokenLimitExceeded" "输入token数超出限制", [])
  else
    r2_attempt_loop max_retries sleep_time ev content user_content 0

/-! ### `BatchProcessor._process_single_file`
(src/core/processor.py, lines 350–935)

The per-batch classification loop is embedded over:

* the running `stats` dictionary (lines 463–470);
* the success table (`output_file`): the in-memory `output_headers`
  variable, the header row actually present in the file, the data rows,
  and whether the file exists (append-mode opens create it);
* the raw log (`raw_file`): the JSON objects appended, in order;
* the failure stream (`error_file`): the original content and the
  classified reason of each failure row (the serialisation differs
  between the CSV and the JSON flavour of the file, the recorded pair
  does not);
* the count of header-mismatch warnings (lines 726–729).

One gathered result per record is either a raised exception
(`asyncio.gather(..., return_exceptions=True)`) or a Python value. -/

/-- The running counters of `_process_single_file` (lines 463–470). -/
structure Stats where
  total : Nat
  success : Nat
  api_error : Nat
  empty_result : Nat
  json_error : Nat
  other_error : Nat
  deriving Repr, DecidableEq

/-- The freshly initialised counters. -/
def Stats.init : Stats := ⟨0, 0, 0, 0, 0, 0⟩

/-- Sum of every counter other than `total`. -/
def Stats.countedSum (s : Stats) : Nat :=
  s.success + s.api_error + s.empty_result + s.json_error + s.other_error

/-- One result delivered by `asyncio.gather(*tasks, return_exceptions=True)`:
either a raised exception or the provider's return value. -/
inductive PyResult where
  | exn (msg : String)
  | val (j : Json)
  deriving Repr

/-- The mutable per-file output state of `_process_single_file`. -/
structure FileState where
  stats : Stats
  output_headers : Option (List String)
  output_file_header : Option (List String)
  output_file_rows : List (List String)
  output_file_exists : Bool
  raw_records : List Json
  error_records : List (String × String)
  header_warnings : Nat
  deriving Repr

/-- Per-file state at the start of processing: counters as loaded,
success-table remnants of a previous run as found on disk. -/
def FileState.start (stats : Stats) (pre_header : Option (List String))
    (pre_rows : List (List String)) (pre_exists : Bool) : FileState :=
  { stats := stats
    output_headers := none
    output_file_header := pre_header
    output_file_rows := pre_rows
    output_file_exists := pre_exists
    raw_records := []
    error_records := []
    header_warnings := 0 }

def FileState.addSuccess (st : FileState) : FileState :=
  { st with stats := { st.stats with success := st.stats.success + 1 } }

def FileState.addApiError (st : FileState) : FileState :=
  { st with stats := { st.stats with api_error := st.stats.api_error + 1 } }

def FileState.addJsonError (st : FileState) : FileState :=
  { st with stats := { st.stats with json_error := st.stats.json_error + 1 } }

def FileState.addOtherError (st : FileState) : FileState :=
  { st with stats := { st.stats with other_error := st.stats.other_error + 1 } }

/-- Append one failure row (original content, classified reason). -/
def FileState.addErrorRow (st : FileState) (content error_type : String) : FileState :=
  { st with error_records := st.error_records ++ [(content, error_type)] }

/-- Append one object to the raw log. -/
def FileState.addRaw (st : FileState) (j : Json) : FileState :=
  { st with raw_records := st.raw_records ++ [j] }

/-- Append one data row to the success table (append mode creates the
file when missing). -/
def FileState.addRow (st : FileState) (row : List String) : FileState :=
  { st with output_file_rows := st.output_file_rows ++ [row],
            output_file_exists := true }

/-- Python `str(value)` as written into a CSV cell by `csv.writer`
(container values are rendered only schematically; no analysed claim
inspects the text of a container cell). -/
def pyStr : Json → String
  | .null => "None"
  | .bool true => "True"
  | .bool false => "False"
  | .num n => toString n
  | .str s => s
  | .arr _ => "<list>"
  | .obj _ => "<dict>"

/-- Model of `csv.DictWriter(f, fieldnames).writerow(rowdict)`: a key of `rowdict`
outside `fieldnames` raises `ValueError`; a missing key is filled with
the `restval` default `''`; a non-dict argument raises
`AttributeError`.  `fieldnames = None` (headers never fixed) raises
`TypeError` inside the field check. -/
def dictWriterRow (fieldnames : Option (List String)) (rowdict : Json) :
    Except PyErr (List String) :=
  match rowdict with
  | .obj kvs =>
    match fieldnames with
    | none => .error .typeError
    | some fns =>
      if kvs.all (fun kv => fns.contains kv.1) then
        .ok (fns.map fun f =>
          match jsonLookup kvs f with
          | some v => pyStr v
          | none => "")
      else .error .valueError
  | _ => .error .attributeError

/-- First line read back from the success table
(`next(csv.reader(f))`, lines 723–725): the header when one was written,
else the first data row, else a raised `StopIteration`. -/
def fileFirstLine (st : FileState) : Except PyErr (List String) :=
  match st.output_file_header with
  | some h => .ok h
  | none =>
    match st.output_file_rows with
    | r :: _ => .ok r
    | [] => .error .valueError

/-- Fix `output_headers` from the first successful record and create the
file header when the file does not exist yet (the pattern of lines
598–603, 654–659, 773–778 and 818–823: no comparison against an existing
file). -/
def initHeadersSimple (st : FileState) (parsed : Json) :
    Except PyErr FileState := do
  if st.output_headers.isNone && pyTruthy parsed then
    let ks ← pyKeys parsed
    let st := { st with output_headers := some ks }
    if !st.output_file_exists then
      pure { st with output_file_header := some ks, output_file_exists := true }
    else
      pure st
  else
    pure st

/-- Fix `output_headers` with the pre-existing-file comparison of lines
716–729: when the file already exists, its first line is read back and a
mismatch emits a warning (the row is still written afterwards). -/
def initHeadersWithCheck (st : FileState) (result : Json) :
    Except PyErr FileState := do
  if st.output_headers.isNone && pyTruthy result then
    let ks ← pyKeys result
    let st := { st with output_headers := some ks }
    if !st.output_file_exists then
      pure { st with output_file_header := some ks, output_file_exists := true }
    else do
      let existing ← fileFirstLine st
      if existing ≠ ks then
        pure { st with header_warnings := st.header_warnings + 1 }
      else
        pure st
  else
    pure st

/-- A raised Python exception together with the state at the moment of
the raise: the mutations already performed (counter increments, file
appends) persist when a later statement raises. -/
abbrev PyM (α : Type) := Except (PyErr × FileState) α

/-- Run a pure (state-free) Python operation, attaching the current state
to a raised exception. -/
def liftPy (st : FileState) (e : Except PyErr α) : PyM α :=
  match e with
  | .ok a => .ok a
  | .error err => .error (err, st)

/-- Lines 549–576: a gathered exception is counted as `api_error` and the
record is routed to the failure stream with reason `API错误`. -/
def exceptionBranch (st : FileState) (content : String) : FileState :=
  (st.addApiError).addErrorRow content "API错误"

/-- Lines 580–635, the `_raw_response` result format: append the raw
object, then either count a success and write the parsed fields against
the fixed header (`csv.DictWriter` may raise — there is no handler in
this branch), or count a `json_error` and route the record to the
failure stream. -/
def modernBranch (st : FileState) (content : String) (result : Json) :
    PyM FileState := do
  let rawResp ← liftPy st (pyDictGet result "_raw_response")
  let rawContent ← liftPy st (pyDictGet result "_raw_content")
  let st := st.addRaw (.obj
    [("raw_response", rawResp), ("raw_content", rawContent),
     ("input", .str content)])
  let pe ← liftPy st (pyDictGet result "_parse_error")
  let pd ← liftPy st (pyDictGet result "_parsed_data")
  if pe.isNull && !pd.isNull then
    let st := st.addSuccess
    let st ← liftPy st (initHeadersSimple st pd)
    let row ← liftPy st (dictWriterRow st.output_headers pd)
    pure (st.addRow row)
  else
    pure ((st.addJsonError).addErrorRow content "JSON解析错误")

/-- Lines 639–708, the legacy `{content, usage}` dict format: only a
fenced code block inside `content` is accepted; its payload is parsed and
written, a fenced parse failure is a `json_error` with reason
`JSON解析错误`, a missing fence is a `json_error` with reason `格式错误`
(`re.search` on a non-string `content` raises). -/
def specialBranch (st : FileState) (item_content : String) (result : Json) :
    PyM FileState := do
  let c ← liftPy st (pyGetStr result "content")
  match c with
  | .str s =>
    match fenceExtract s with
    | some json_content =>
      match json_loads json_content with
      | some result_dict =>
        let st := (st.addSuccess).addRaw result_dict
        let st ← liftPy st (initHeadersSimple st result_dict)
        let row ← liftPy st (dictWriterRow st.output_headers result_dict)
        pure (st.addRow row)
      | none =>
        pure ((st.addJsonError).addErrorRow item_content "JSON解析错误")
    | none =>
      pure ((st.addJsonError).addErrorRow item_content "格式错误")
  | _ => .error (.typeError, st)

/-- Lines 710–733, a plain dict result: count a success, append it to the
raw log, fix the header (with the pre-existing-file warning of lines
722–729) and write the row (`csv.DictWriter` may raise). -/
def genericDictBranch (st : FileState) (result : Json) :
    PyM FileState := do
  let st := (st.addSuccess).addRaw result
  let st ← liftPy st (initHeadersWithCheck st result)
  let row ← liftPy st (dictWriterRow st.output_headers result)
  pure (st.addRow row)

/-- Dict results without `_raw_response` (lines 637–754): the legacy
branches wrapped in the `try` whose handler at line 734 counts an
`other_error` and routes the record to the failure stream with reason
`处理错误`. -/
def oldFormatDict (st : FileState) (content : String) (result : Json) :
    FileState :=
  let body : PyM FileState := do
    let hasContent ← liftPy st (pyContains "content" result)
    if hasContent then
      let hasUsage ← liftPy st (pyContains "usage" result)
      if hasUsage then
        specialBranch st content result
      else
        genericDictBranch st result
    else
      genericDictBranch st result
  match body with
  | .ok st' => st'
  | .error (_, stRaise) => (stRaise.addOtherError).addErrorRow content "处理错误"

/-- Lines 759–851, a string result (inside the `try` of line 759): a
fenced payload is parsed and written on success, a fenced parse failure
appends a failure row with reason `JSON解析错误` but increments no
counter (lines 784–804); without a fence the whole string is parsed — a
parsed list is replaced by its first element, a parsed dict is written
as a success, any other parsed value falls through uncounted, and a
parse failure is a `json_error`. -/
def strBranchBody (st : FileState) (content : String) (s : String) :
    PyM FileState := do
  match fenceExtract s with
  | some json_content =>
    match json_loads json_content with
    | some result_dict =>
      let st := (st.addSuccess).addRaw result_dict
      let st ← liftPy st (initHeadersSimple st result_dict)
      let row ← liftPy st (dictWriterRow st.output_headers result_dict)
      pure (st.addRow row)
    | none =>
      pure (st.addErrorRow content "JSON解析错误")
  | none =>
    match json_loads s with
    | some v =>
      let result_dict :=
        match v with
        | .arr xs => xs.headD (.obj [])
        | _ => v
      match result_dict with
      | .obj _ =>
        let st := (st.addSuccess).addRaw result_dict
        let st ← liftPy st (initHeadersSimple st result_dict)
        let row ← liftPy st (dictWriterRow st.output_headers result_dict)
        pure (st.addRow row)
      | _ => pure st
    | none =>
      pure ((st.addJsonError).addErrorRow content "JSON解析错误")

/-- A string result with its handler at line 852: any exception is
counted as `other_error` (no failure row is written there). -/
def strBranch (st : FileState) (content : String) (s : String) : FileState :=
  match strBranchBody st content s with
  | .ok st' => st'
  | .error (_, stRaise) => stRaise.addOtherError

/-- The dispatch on one gathered result (lines 548–876), with the
exceptions that escape every inner handler surfaced in the error
component.  A result that is neither an exception, nor a dict, nor a
string — in particular the `None` a provider returns on failure —
matches no branch and leaves the state unchanged. -/
def processResultBody (st : FileState) (content : String)
    (result : PyResult) : PyM FileState :=
  match result with
  | .exn _ => .ok (exceptionBranch st content)
  | .val j =>
    match j with
    | .obj _ => do
      let hasRaw ← liftPy st (pyContains "_raw_response" j)
      if hasRaw then
        modernBranch st content j
      else
        .ok (oldFormatDict st content j)
    | .str s => .ok (strBranch st content s)
    | _ => .ok st

/-- One record of the batch with the outer per-record handler of lines
877–898: an uncaught exception is counted as `other_error` and the record
is routed to the failure stream with reason `未捕获异常`; the loop then
continues with the next record. -/
def processResult (st : FileState) (content : String) (result : PyResult) :
    FileState :=
  match processResultBody st content result with
  | .ok st' => st'
  | .error (_, stRaise) => (stRaise.addOtherError).addErrorRow content "未捕获异常"

/-- One batch (lines 531–547): `stats['total'] += len(items)`, then every
gathered result is classified in order. -/
def processBatch (st : FileState) (batch : List (String × PyResult)) :
    FileState :=
  let st := { st with stats := { st.stats with
    total := st.stats.total + batch.length } }
  batch.foldl (fun s cr => processResult s cr.1 cr.2) st

/-- One persisted checkpoint of the progress file (lines 906–912). -/
structure Progress where
  last_position : Int
  stats : Stats
  deriving Repr, DecidableEq

/-- The while loop of lines 519–918 over the successive non-empty batches
read from the file: after each batch, `current_pos` advances by the
number of records consumed and a checkpoint is written.  Returns the
final state and position together with every persisted checkpoint in
order. -/
def runBatches (pos : Int) (st : FileState) :
    List (List (String × PyResult)) → FileState × Int × List Progress
  | [] => (st, pos, [])
  | b :: bs =>
    let st' := processBatch st b
    let pos' := pos + b.length
    let (stf, posf, cps) := runBatches pos' st' bs
    (stf, posf, ⟨pos', st'.stats⟩ :: cps)

/-- Lines 461–482: the starting offset is `start_pos - 1`, raised to the
persisted `last_position` when a progress file exists. -/
def initial_position (start_pos : Int) (progress : Option Progress) : Int :=
  let current_pos := start_pos - 1
  match progress with
  | some p => max current_pos p.last_position
  | none => current_pos

/-- Lines 463–479: counters start fresh, or from the persisted stats when
a progress file exists. -/
def initial_stats (progress : Option Progress) : Stats :=
  match progress with
  | some p => p.stats
  | none => Stats.init

/-- Processing of one file: position and counters initialised from the
user-supplied start position and the optional checkpoint, then the batch
loop. -/
def run_single_file (start_pos : Int) (progress : Option Progress)
    (pre_header : Option (List String)) (pre_rows : List (List String))
    (pre_exists : Bool) (batches : List (List (String × PyResult))) :
    FileState × Int × List Progress :=
  runBatches (initial_position start_pos progress)
    (FileState.start (initial_stats progress) pre_header pre_rows pre_exists)
    batches

/-! ### Shared concrete inputs for the claim theorems -/

/-- An environment whose every HTTP attempt yields the given status with
an empty body. -/
def constResp (status : Nat) : Nat → HttpEvent := fun _ => .resp status .null

/-- An OpenAI-style 200 body with a single choice carrying `content`. -/
def mkChatResponse (content : String) : Json :=
  .obj [("choices", .arr [.obj [("message", .obj [("content", .str content)])]])]

/-- A provider result in the `_raw_response` format whose parse succeeded
with the given payload. -/
def mkModernResult (parsed : Json) : PyResult :=
  .val (.obj [("_raw_response", .str "raw"), ("_raw_content", .str "content"),
              ("_parse_error", .null), ("_parsed_data", parsed)])

/-- The per-file state of a fresh run (no checkpoint, no pre-existing
output files). -/
def freshFileState : FileState := FileState.start Stats.init none [] false

/-- The spec's brace-extraction example: JSON surrounded by prose. -/
def noiseContent : String := "noise \x7b\"a\":1\x7d trailing"

/-- The spec's fenced example. -/
def fencedContent : String := "```json\n\x7b\"a\":1\x7d\n```"

/-- The spec's plain-JSON example. -/
def plainJsonContent : String := "\x7b\"a\":1\x7d"

/-- The spec's no-braces example. -/
def noBraceContent : String := "no braces here"

/-- A fenced block whose payload is not JSON, followed by valid JSON
outside the fence. -/
def fencedBadContent : String := "```json\nbad\n``` \x7b\"a\":1\x7d"

/-- The parse result of the examples above. -/
def objA1 : Json := .obj [("a", .num 1)]

/-- A `_raw_response` result whose parsed payload is a bare number: the
header initialisation calls `.keys()` on it and raises, escaping the
modern branch. -/
def c7ex_result : PyResult := mkModernResult (.num 1)

/-- The state at that raise: the raw object is already appended and the
success counter already incremented. -/
def c7ex_state : FileState :=
  { stats := ⟨0, 1, 0, 0, 0, 0⟩
    output_headers := none
    output_file_header := none
    output_file_rows := []
    output_file_exists := false
    raw_records := [.obj [("raw_response", .str "raw"),
      ("raw_content", .str "content"), ("input", .str "x")]]
    error_records := []
    header_warnings := 0 }

/-! ## Helper lemmas -/

theorem postsCount_post (sys user : String) (tr : List Action) :
    postsCount (.post sys user :: tr) = postsCount tr + 1 := by
  simp [postsCount, List.filter]

theorem postsCount_sleep (d : ℚ) (tr : List Action) :
    postsCount (.sleep d :: tr) = postsCount tr := by
  simp [postsCount, List.filter]

theorem sleepDelays_post (sys user : String) (tr : List Action) :
    sleepDelays (.post sys user :: tr) = sleepDelays tr := by
  simp [sleepDelays]

theorem sleepDelays_sleep (d : ℚ) (tr : List Action) :
    sleepDelays (.sleep d :: tr) = d :: sleepDelays tr := by
  simp [sleepDelays]

/-- Monotonicity of the checkpoint positions produced by the batch loop. -/
theorem runBatches_pos_mono (bs : List (List (String × PyResult))) :
    ∀ (pos : Int) (st : FileState),
      (∀ q ∈ (runBatches pos st bs).2.2, pos ≤ q.last_position) ∧
      List.Chain' (fun a b => a.last_position ≤ b.last_position)
        (runBatches pos st bs).2.2 := by
  induction bs with
  | nil => intro pos st; simp [runBatches]
  | cons b bs ih =>
    intro pos st
    obtain ⟨ih1, ih2⟩ := ih (pos + b.length) (processBatch st b)
    have hle : pos ≤ pos + (b.length : Int) := by
      have : (0 : Int) ≤ (b.length : Int) := Int.ofNat_nonneg _
      omega
    constructor
    · intro q hq
      simp only [runBatches, List.mem_cons] at hq
      rcases hq with rfl | hq
      · exact hle
      · exact le_trans hle (ih1 q hq)
    · simp only [runBatches]
      rw [List.chain'_cons']
      refine ⟨?_, ih2⟩
      intro y hy
      have hmem : y ∈ (runBatches (pos + (b.length : Int)) (processBatch st b) bs).2.2 :=
        List.mem_of_mem_head? hy
      exact ih1 y hmem

/-- One non-retryable step of the universal provider. -/
theorem uni_step_noretry (m : Nat) (base : ℚ) (ev : Nat → HttpEvent)
    (sys user : String) (r s : Nat) (body : Json)
    (hev : ev r = .resp s body) (h200 : ¬ s = 200)
    (hnr : ¬ (s = 429 ∨ s = 503 ∨ s = 502 ∨ s = 504)) :
    uni_process_request m base ev sys user r = (none, [.post sys user]) := by
  rw [uni_process_request.eq_def, hev]
  simp [h200, hnr]

/-- One retryable step of the universal provider with budget left. -/
theorem uni_step_retry (m : Nat) (base : ℚ) (ev : Nat → HttpEvent)
    (sys user : String) (r s : Nat) (body : Json)
    (hev : ev r = .resp s body) (h200 : ¬ s = 200)
    (hret : s = 429 ∨ s = 503 ∨ s = 502 ∨ s = 504) (hlt : r < m) :
    uni_process_request m base ev sys user r =
      ((uni_process_request m base ev sys user (r + 1)).1,
        .post sys user :: .sleep (min (2 ^ r * base) 10) ::
          (uni_process_request m base ev sys user (r + 1)).2) := by
  rw [uni_process_request.eq_def, hev]
  simp [h200, hret, hlt]

/-- One retryable step of the universal provider with the budget
exhausted. -/
theorem uni_step_exhausted (m : Nat) (base : ℚ) (ev : Nat → HttpEvent)
    (sys user : String) (r s : Nat) (body : Json)
    (hev : ev r = .resp s body) (h200 : ¬ s = 200)
    (hret : s = 429 ∨ s = 503 ∨ s = 502 ∨ s = 504) (hge : ¬ r < m) :
    uni_process_request m base ev sys user r = (none, [.post sys user]) := by
  rw [uni_process_request.eq_def, hev]
  simp [h200, hret, hge]

/-- Under an always-retryable-status environment, the universal provider
starting at `retry_count = r` makes `m - r + 1` HTTP attempts and sleeps
`min(2 ^ j * base, 10)` for `j = r, …, m - 1`, returning `None`. -/
theorem uni_const_retryable (base : ℚ) (sys user : String) (s : Nat)
    (h200 : ¬ s = 200) (hret : s = 429 ∨ s = 503 ∨ s = 502 ∨ s = 504)
    (m : Nat) : ∀ k r, m - r = k →
      (uni_process_request m base (constResp s) sys user r).1 = none ∧
      postsCount (uni_process_request m base (constResp s) sys user r).2 = k + 1 ∧
      sleepDelays (uni_process_request m base (constResp s) sys user r).2 =
        (List.range' r k).map (fun j => min (2 ^ j * base) 10) := by
  intro k
  induction k with
  | zero =>
    intro r hr
    have hge : ¬ r < m := by omega
    rw [uni_step_exhausted m base (constResp s) sys user r s .null rfl h200 hret hge]
    exact ⟨rfl, rfl, rfl⟩
  | succ k ih =>
    intro r hr
    have hlt : r < m := by omega
    rw [uni_step_retry m base (constResp s) sys user r s .null rfl h200 hret hlt]
    obtain ⟨ih1, ih2, ih3⟩ := ih (r + 1) (by omega)
    refine ⟨ih1, ?_, ?_⟩
    · rw [postsCount_post, postsCount_sleep, ih2]
    · rw [sleepDelays_post, sleepDelays_sleep, ih3, List.range'_succ]
      rfl

/-- One non-retryable step of the aliyun provider (any non-200 status
outside `[429, 503]`). -/
theorem aliyun_step_noretry (m : Nat) (base : ℚ) (ev : Nat → HttpEvent)
    (sys user : String) (r s : Nat) (body : Json)
    (hev : ev r = .resp s body) (h200 : ¬ s = 200)
    (hnr : ¬ (s = 429 ∨ s = 503)) :
    aliyun_process_request m base ev sys user r = (none, [.post sys user]) := by
  rw [aliyun_process_request.eq_def, hev]
  simp [h200, hnr]

/-- One retryable step of the aliyun provider with budget left. -/
theorem aliyun_step_retry (m : Nat) (base : ℚ) (ev : Nat → HttpEvent)
    (sys user : String) (r s : Nat) (body : Json)
    (hev : ev r = .resp s body) (h200 : ¬ s = 200)
    (hret : s = 429 ∨ s = 503) (hlt : r < m) :
    aliyun_process_request m base ev sys user r =
      ((aliyun_process_request m base ev sys user (r + 1)).1,
        .post sys user :: .sleep (min (2 ^ r * base) 10) ::
          (aliyun_process_request m base ev sys user (r + 1)).2) := by
  rw [aliyun_process_request.eq_def, hev]
  simp [h200, hret, hlt]

/-- One retryable step of the aliyun provider with the budget
exhausted. -/
theorem aliyun_step_exhausted (m : Nat) (base : ℚ) (ev : Nat → HttpEvent)
    (sys user : String) (r s : Nat) (body : Json)
    (hev : ev r = .resp s body) (h200 : ¬ s = 200)
    (hret : s = 429 ∨ s = 503) (hge : ¬ r < m) :
    aliyun_process_request m base ev sys user r = (none, [.post sys user]) := by
  rw [aliyun_process_request.eq_def, hev]
  simp [h200, hret, hge]

/-- Under an always-retryable-status environment, the aliyun provider
starting at `retry_count = r` makes `m - r + 1` HTTP attempts and
returns `None`. -/
theorem aliyun_const_retryable (base : ℚ) (sys user : String) (s : Nat)
    (h200 : ¬ s = 200) (hret : s = 429 ∨ s = 503)
    (m : Nat) : ∀ k r, m - r = k →
      (aliyun_process_request m base (constResp s) sys user r).1 = none ∧
      postsCount (aliyun_process_request m base (constResp s) sys user r).2 = k + 1 := by
  intro k
  induction k with
  | zero =>
    intro r hr
    have hge : ¬ r < m := by omega
    rw [aliyun_step_exhausted m base (constResp s) sys user r s .null rfl h200 hret hge]
    exact ⟨rfl, rfl⟩
  | succ k ih =>
    intro r hr
    have hlt : r < m := by omega
    rw [aliyun_step_retry m base (constResp s) sys user r s .null rfl h200 hret hlt]
    obtain ⟨ih1, ih2⟩ := ih (r + 1) (by omega)
    refine ⟨ih1, ?_⟩
    rw [postsCount_post, postsCount_sleep, ih2]

/-- The terminal iteration of the round-2 attempt loop on a non-200
status: the last allowed attempt returns the error pair. -/
theorem r2_step_final (m : Nat) (base : ℚ) (ev : Nat → HttpEvent)
    (sys user : String) (r s : Nat) (body : Json)
    (hev : ev r = .resp s body) (h200 : ¬ s = 200)
    (hlt : r < m) (hlast : ¬ r < m - 1) :
    r2_attempt_loop m base ev sys user r =
      (.failure "APIError" "状态码非200", [.post sys user]) := by
  rw [r2_attempt_loop.eq_def]
  simp only [hlt, dif_pos, hev]
  simp [h200, hlast]

/-- A non-terminal iteration of the round-2 attempt loop on a non-200
status: sleep and move to the next attempt. -/
theorem r2_step_retry (m : Nat) (base : ℚ) (ev : Nat → HttpEvent)
    (sys user : String) (r s : Nat) (body : Json)
    (hev : ev r = .resp s body) (h200 : ¬ s = 200)
    (hnl : r < m - 1) (hlt : r < m) :
    r2_attempt_loop m base ev sys user r =
      ((r2_attempt_loop m base ev sys user (r + 1)).1,
        .post sys user :: .sleep (min (2 ^ r * base) 10) ::
          (r2_attempt_loop m base ev sys user (r + 1)).2) := by
  rw [r2_attempt_loop.eq_def]
  simp only [hlt, dif_pos, hev]
  simp [h200, hnl]

/-- Under an always-non-200 environment, the round-2 attempt loop
starting at `attempt = r` with `m - r = k ≥ 1` attempts left makes
exactly `k` HTTP attempts, sleeps `min(2 ^ j * base, 10)` for
`j = r, …, m - 2`, and ends in the `APIError` pair. -/
theorem r2_const_non200 (base : ℚ) (sys user : String) (s : Nat)
    (h200 : ¬ s = 200) (m : Nat) : ∀ k r, m - r = k → 1 ≤ k →
      (r2_attempt_loop m base (constResp s) sys user r).1 =
        .failure "APIError" "状态码非200" ∧
      postsCount (r2_attempt_loop m base (constResp s) sys user r).2 = k ∧
      sleepDelays (r2_attempt_loop m base (constResp s) sys user r).2 =
        (List.range' r (k - 1)).map (fun j => min (2 ^ j * base) 10) := by
  intro k
  induction k with
  | zero => intro r hr hk; omega
  | succ k ih =>
    intro r hr _
    rcases Nat.eq_zero_or_pos k with hk | hk
    · subst hk
      have hlt : r < m := by omega
      have hlast : ¬ r < m - 1 := by omega
      rw [r2_step_final m base (constResp s) sys user r s .null rfl h200 hlt hlast]
      exact ⟨rfl, rfl, rfl⟩
    · have hlt : r < m := by omega
      have hnl : r < m - 1 := by omega
      rw [r2_step_retry m base (constResp s) sys user r s .null rfl h200 hnl hlt]
      obtain ⟨ih1, ih2, ih3⟩ := ih (r + 1) (by omega) hk
      refine ⟨ih1, ?_, ?_⟩
      · rw [postsCount_post, postsCount_sleep, ih2]
      · rw [sleepDelays_post, sleepDelays_sleep, ih3]
        obtain ⟨k', rfl⟩ : ∃ k', k = k' + 1 := ⟨k - 1, by omega⟩
        rw [Nat.add_sub_cancel, Nat.succ_sub_one, List.range'_succ]
        rfl

/-! ## Claim theorems -/

/-- C1.  The claim `stats.total == stats.success + stats.api_error +
stats.empty_result + stats.json_error + stats.other_error` at every
persisted checkpoint fails on the code exactly in the case the claim
singles out: a record whose provider result is `None` matches neither the
exception, nor the dict, nor the string branch of the classification, so
only `total` is incremented.  Running one batch containing one such record
persists a checkpoint with `total = 1` and every other counter `0`. -/
theorem c1_checkpoint_invariant_violated_for_none :
    ((run_single_file 1 none none [] false
        [[("rec", PyResult.val .null)]]).2.2.map
      (fun p => (p.stats.total, p.stats.countedSum))) = [(1, 0)] := rfl

/-- C2.  Lines 461–482 of processor.py: with a checkpoint present, the
file's processing starts at the maximum of the 0-based user start offset
`start_pos - 1` and the persisted `last_position`; whenever the persisted
offset is larger, the run continues from the checkpoint. -/
theorem c2_resume_from_checkpoint (start_pos : Int) (p : Progress)
    (pre_header : Option (List String)) (pre_rows : List (List String))
    (pre_exists : Bool) (batches : List (List (String × PyResult))) :
    initial_position start_pos (some p) = max (start_pos - 1) p.last_position ∧
    (start_pos - 1 < p.last_position →
      initial_position start_pos (some p) = p.last_position) ∧
    run_single_file start_pos (some p) pre_header pre_rows pre_exists batches =
      runBatches (max (start_pos - 1) p.last_position)
        (FileState.start p.stats pre_header pre_rows pre_exists) batches := by
  refine ⟨rfl, ?_, rfl⟩
  intro h
  simp only [initial_position]
  omega

/-- Witness for C2 at a concrete input: `--start-pos 5` with a persisted
offset of 10 resumes at 10. -/
theorem c2_resume_witness :
    initial_position 5 (some ⟨10, Stats.init⟩) = 10 :=
  (c2_resume_from_checkpoint 5 ⟨10, Stats.init⟩ none [] false []).2.1 (by norm_num)

/-- C9.  The persisted `last_position` is monotonically non-decreasing
over the life of a file's processing: it starts at the maximum of the
requested start offset and the loaded checkpoint, every persisted
checkpoint is at least that initial value, and consecutive checkpoints
are non-decreasing (each batch advances the position by the batch's
length, a natural number). -/
theorem c9_last_position_monotone (start_pos : Int) (p : Progress)
    (pre_header : Option (List String)) (pre_rows : List (List String))
    (pre_exists : Bool) (batches : List (List (String × PyResult))) :
    initial_position start_pos (some p) = max (start_pos - 1) p.last_position ∧
    (∀ q ∈ (run_single_file start_pos (some p) pre_header pre_rows
        pre_exists batches).2.2,
      initial_position start_pos (some p) ≤ q.last_position) ∧
    List.Chain' (fun a b => a.last_position ≤ b.last_position)
      (run_single_file start_pos (some p) pre_header pre_rows
        pre_exists batches).2.2 :=
  ⟨rfl,
   (runBatches_pos_mono batches (initial_position start_pos (some p))
     (FileState.start (initial_stats (some p)) pre_header pre_rows pre_exists)).1,
   (runBatches_pos_mono batches (initial_position start_pos (some p))
     (FileState.start (initial_stats (some p)) pre_header pre_rows pre_exists)).2⟩

/-- Witness for C9 at a concrete input: resuming at offset 3 and
consuming one record persists position 4 ≥ 3. -/
theorem c9_last_position_witness :
    initial_position 1 (some ⟨3, Stats.init⟩) ≤
      (Progress.mk 4 ⟨1, 0, 0, 0, 0, 0⟩).last_position :=
  (c9_last_position_monotone 1 ⟨3, Stats.init⟩ none [] false
      [[("x", PyResult.val .null)]]).2.1
    ⟨4, ⟨1, 0, 0, 0, 0, 0⟩⟩ (by decide)

/-- C10.  `_parse_success_response` returns without raising on every
decoded response body: its catch-all maps any exception of the body to
`None`, a missing or falsy `choices` yields `None`, and a well-formed
single-choice body yields exactly the extraction chain applied to the
content (which is itself `None` whenever no step parses). -/
theorem c10_parse_success_response_total (j : Json) :
    (∃ o : Option Json, parse_success_response j = .ok o) ∧
    (∀ e : PyErr, parse_success_body j = .error e →
      parse_success_response j = .ok none) ∧
    (pyContains "choices" j = .ok false → parse_success_response j = .ok none) ∧
    (∀ kvs, j = Json.obj kvs → jsonLookup kvs "choices" = some (.arr []) →
      parse_success_response j = .ok none) ∧
    (∀ s, j = mkChatResponse s →
      parse_success_response j = .ok (uni_extract_chain s)) := by
  refine ⟨?_, ?_, ?_, ?_, ?_⟩
  · cases h : parse_success_body j with
    | ok o => exact ⟨o, by simp [parse_success_response, h]⟩
    | error e => exact ⟨none, by simp [parse_success_response, h]⟩
  · intro e h
    simp [parse_success_response, h]
  · intro h
    unfold parse_success_response parse_success_body
    rw [h]
    rfl
  · intro kvs hj hlook
    subst hj
    have h1 : pyContains "choices" (Json.obj kvs) = .ok true := by
      simp [pyContains, hlook]
    have h2 : pyGetStr (Json.obj kvs) "choices" = .ok (.arr []) := by
      simp [pyGetStr, hlook]
    unfold parse_success_response parse_success_body
    rw [h1, h2]
    rfl
  · intro s hj
    subst hj
    rfl

/-- Witness for C10 at a concrete input: an integer response body makes
the body raise `TypeError` and the function still returns `None`. -/
theorem c10_parse_success_response_witness :
    parse_success_response (.num 3) = .ok none :=
  (c10_parse_success_response_total (.num 3)).2.1 .typeError rfl

/-- C3 counterexample.  The claim predicts that the content
`noise {"a":1} trailing` yields `Success{a:1}` via brace-extraction; on
the code, `_parse_success_response` has no brace-extraction step and
returns `None` (a parse failure) for this content. -/
theorem c3_no_brace_extraction_counterexample :
    parse_success_response (mkChatResponse noiseContent) = .ok none := rfl

/-- C3 amended.  The extraction chain of
`UniversalLLMProvider._parse_success_response` has exactly two steps —
parse the fenced payload when a fence is present (a failure inside the
fence is terminal), else parse the whole content — with no
brace-extraction step, so the noise example and the no-braces example
both yield a parse failure (`None`); the separate round-2 parser
`parse_llm_response` instead tries the whole content (with schema
validation) and then first-`{`-to-last-`}` extraction without
validation, so there the noise example parses and the no-braces example
fails with `NoJSONFound`. -/
theorem c3_extraction_chain_amended :
    (∀ s json_content, fenceExtract s = some json_content →
      uni_extract_chain s = json_loads json_content) ∧
    (∀ s, fenceExtract s = none → uni_extract_chain s = json_loads s) ∧
    parse_success_response (mkChatResponse fencedContent) = .ok (some objA1) ∧
    parse_success_response (mkChatResponse plainJsonContent) = .ok (some objA1) ∧
    parse_success_response (mkChatResponse noBraceContent) = .ok none ∧
    parse_success_response (mkChatResponse fencedBadContent) = .ok none ∧
    parse_llm_response (mkChatResponse noiseContent) = .ok objA1 noiseContent ∧
    parse_llm_response (mkChatResponse plainJsonContent) =
      .fail "MissingFields" "缺少必要字段" ∧
    parse_llm_response (mkChatResponse noBraceContent) =
      .fail "NoJSONFound" "响应中未找到JSON" := by
  refine ⟨?_, ?_, rfl, rfl, rfl, rfl, rfl, rfl, rfl⟩
  · intro s jc h
    simp [uni_extract_chain, h]
  · intro s h
    simp [uni_extract_chain, h]

/-- Witness for C3's amended chain at a concrete input: the fenced
example parses through its fenced payload. -/
theorem c3_extraction_chain_witness :
    uni_extract_chain fencedContent = json_loads plainJsonContent :=
  c3_extraction_chain_amended.1 fencedContent plainJsonContent rfl

/-- C6 counterexample.  The claim predicts two data rows under header
`{a,b}` when record 1 has fields `{a,b}` and record 2 has `{a,b,c}`; on
the code, `csv.DictWriter` rejects the unknown field `c`, the per-record
handler catches the `ValueError`, and the success table holds exactly
one data row while record 2 is routed to the failure stream. -/
theorem c6_header_drift_counterexample :
    (processBatch freshFileState
      [("r1", mkModernResult (.obj [("a", .num 1), ("b", .num 2)])),
       ("r2", mkModernResult (.obj [("a", .num 1), ("b", .num 2), ("c", .num 3)]))]
      ).output_file_rows = [["1", "2"]] := rfl

/-- C6 amended.  The success-table header is fixed at the keys of the
first successful record.  A later record whose keys are a subset of the
header is written against it with missing fields empty; a later record
with a key outside the header is **not** written — the CSV writer raises,
the per-record handler catches the exception (the record having already
been counted as a success) and additionally counts it as `other_error`
and routes it to the failure stream; no warning is emitted on this path
and no exception propagates. -/
theorem c6_header_drift_amended (va vb vc w : Json) (n1 n2 n3 : String) :
    (processResult freshFileState n1
        (mkModernResult (.obj [("a", va), ("b", vb)]))).output_headers =
      some ["a", "b"] ∧
    (processResult freshFileState n1
        (mkModernResult (.obj [("a", va), ("b", vb)]))).output_file_rows =
      [[pyStr va, pyStr vb]] ∧
    (processResult (processResult freshFileState n1
        (mkModernResult (.obj [("a", va), ("b", vb)]))) n2
        (mkModernResult (.obj [("a", va), ("b", vb), ("c", vc)]))).output_file_rows =
      [[pyStr va, pyStr vb]] ∧
    (processResult (processResult freshFileState n1
        (mkModernResult (.obj [("a", va), ("b", vb)]))) n2
        (mkModernResult (.obj [("a", va), ("b", vb), ("c", vc)]))).stats =
      ⟨0, 2, 0, 0, 0, 1⟩ ∧
    (processResult (processResult freshFileState n1
        (mkModernResult (.obj [("a", va), ("b", vb)]))) n2
        (mkModernResult (.obj [("a", va), ("b", vb), ("c", vc)]))).error_records =
      [(n2, "未捕获异常")] ∧
    (processResult (processResult freshFileState n1
        (mkModernResult (.obj [("a", va), ("b", vb)]))) n2
        (mkModernResult (.obj [("a", va), ("b", vb), ("c", vc)]))).header_warnings =
      0 ∧
    (processResult (processResult freshFileState n1
        (mkModernResult (.obj [("a", va), ("b", vb)]))) n3
        (mkModernResult (.obj [("a", w)]))).output_file_rows =
      [[pyStr va, pyStr vb], [pyStr w, ""]] ∧
    (processResult (processResult freshFileState n1
        (mkModernResult (.obj [("a", va), ("b", vb)]))) n3
        (mkModernResult (.obj [("a", w)]))).stats =
      ⟨0, 2, 0, 0, 0, 0⟩ :=
  ⟨rfl, rfl, rfl, rfl, rfl, rfl, rfl, rfl⟩

/-- C7 counterexample.  The claim predicts that any exception raised
while processing a record's result is written to the failure stream; an
exception recovered by the string-result handler of line 852 is counted
(`other_error = 1`) but writes no failure row — here a string result
whose fenced payload parses to a bare number, so the header
initialisation raises inside the string branch. -/
theorem c7_string_handler_counterexample :
    (processResult freshFileState "rec"
        (.val (.str "```json\n42\n```"))).stats.other_error = 1 ∧
    (processResult freshFileState "rec"
        (.val (.str "```json\n42\n```"))).error_records = [] :=
  ⟨rfl, rfl⟩

/-- C7 amended.  Any exception raised while processing one record's
result is caught and counted as an error, and the fold always continues
with the remaining records — a record-level failure never escapes the
record boundary.  An exception that escapes every inner handler is
caught by the outer per-record handler, counted as `other_error` and
routed to the failure stream with reason `未捕获异常` (the mutations
already performed persist); an exception recovered by the string-result
handler of line 852 is counted as `other_error` without a failure-stream
row. -/
theorem c7_record_failure_recovered (st : FileState) (content : String)
    (result : PyResult) (e : PyErr) (stRaise : FileState)
    (rest : List (String × PyResult))
    (h : processResultBody st content result = .error (e, stRaise)) :
    processResult st content result =
      (stRaise.addOtherError).addErrorRow content "未捕获异常" ∧
    (processResult st content result).stats.other_error =
      stRaise.stats.other_error + 1 ∧
    (processResult st content result).error_records =
      stRaise.error_records ++ [(content, "未捕获异常")] ∧
    List.foldl (fun s cr => processResult s cr.1 cr.2) st
        ((content, result) :: rest) =
      List.foldl (fun s cr => processResult s cr.1 cr.2)
        (processResult st content result) rest ∧
    (∀ (st₂ : FileState) (content₂ s₂ : String) (e₂ : PyErr)
        (stRaise₂ : FileState),
      strBranchBody st₂ content₂ s₂ = .error (e₂, stRaise₂) →
        strBranch st₂ content₂ s₂ = stRaise₂.addOtherError) := by
  refine ⟨?_, ?_, ?_, rfl, ?_⟩
  · simp [processResult, h]
  · simp [processResult, h, FileState.addOtherError, FileState.addErrorRow]
  · simp [processResult, h, FileState.addOtherError, FileState.addErrorRow]
  · intro st₂ content₂ s₂ e₂ stRaise₂ h₂
    simp [strBranch, h₂]

/-- Witness for C7 at a concrete input: a `_raw_response` result whose
parsed payload is a bare number raises in the header initialisation; the
outer handler converts it. -/
theorem c7_record_failure_witness :
    processResult freshFileState "x" c7ex_result =
      (c7ex_state.addOtherError).addErrorRow "x" "未捕获异常" :=
  (c7_record_failure_recovered freshFileState "x" c7ex_result
    .attributeError c7ex_state [] rfl).1

/-- C4 counterexample.  The claim predicts that a record whose remote
calls always return 503 makes exactly `maxRetries` attempts; the
universal provider with `max_retries = 2` makes 3 HTTP attempts (the
initial call plus one per retry). -/
theorem c4_attempt_count_counterexample :
    postsCount (uni_process_request 2 1 (constResp 503) "sys" "user" 0).2 = 3 := by
  have h := uni_const_retryable 1 "sys" "user" 503 (by norm_num) (by norm_num) 2 2 0 rfl
  exact h.2.1

/-- C4 amended.  For a record whose remote calls always return 503: the
universal provider makes `maxRetries + 1` attempts with the delay before
retry `k` (0-indexed) equal to `min(2 ^ k * retryInterval, 10)` for
`k = 0, …, maxRetries - 1`, ending in failure (`None`); the round-2
script's `deepseek_request_async` makes exactly `maxRetries` attempts
(for `maxRetries ≥ 1` and an input passing the token guard), with the
same delay formula for `k = 0, …, maxRetries - 2`, ending in `APIError`.
In both, the cap bounding the wait is 10 seconds. -/
theorem c4_retry_schedule_amended (m : Nat) (base : ℚ) (sys user : String) :
    (uni_process_request m base (constResp 503) sys user 0).1 = none ∧
    postsCount (uni_process_request m base (constResp 503) sys user 0).2 = m + 1 ∧
    sleepDelays (uni_process_request m base (constResp 503) sys user 0).2 =
      (List.range m).map (fun k => min (2 ^ k * base) 10) ∧
    (∀ maxTok : Nat, 1 ≤ m → (check_input_length sys user maxTok).1 = true →
      (deepseek_request_async m base maxTok (constResp 503) sys user).1 =
        .failure "APIError" "状态码非200" ∧
      postsCount (deepseek_request_async m base maxTok (constResp 503) sys user).2 = m ∧
      sleepDelays (deepseek_request_async m base maxTok (constResp 503) sys user).2 =
        (List.range (m - 1)).map (fun k => min (2 ^ k * base) 10)) := by
  obtain ⟨h1, h2, h3⟩ :=
    uni_const_retryable base sys user 503 (by norm_num) (by norm_num) m m 0 rfl
  refine ⟨h1, h2, ?_, ?_⟩
  · rw [h3, List.range_eq_range']
  · intro maxTok hm hcheck
    have hds : deepseek_request_async m base maxTok (constResp 503) sys user =
        r2_attempt_loop m base (constResp 503) sys user 0 := by
      simp [deepseek_request_async, hcheck]
    obtain ⟨g1, g2, g3⟩ :=
      r2_const_non200 base sys user 503 (by norm_num) m m 0 rfl hm
    rw [hds]
    exact ⟨g1, g2, by rw [g3, List.range_eq_range']⟩

/-- Witness for C4's amended schedule at a concrete input:
`maxRetries = 2`, `base = 1`, a short prompt within the token budget —
the round-2 script makes exactly 2 attempts. -/
theorem c4_retry_schedule_witness :
    postsCount (deepseek_request_async 2 1 100 (constResp 503) "abc" "").2 = 2 :=
  ((c4_retry_schedule_amended 2 1 "abc" "").2.2.2 100 (by norm_num) rfl).2.1

/-- C5 counterexample.  The claim predicts that status 502 is retried
until the budget is exhausted; `AliyunProvider.process_request` with a
full budget of 5 retries answers a 502 with an immediate failure after a
single HTTP attempt and no sleep. -/
theorem c5_aliyun_502_counterexample :
    aliyun_process_request 5 1 (constResp 502) "sys" "user" 0 =
      (none, [.post "sys" "user"]) :=
  aliyun_step_noretry 5 1 (constResp 502) "sys" "user" 0 502 .null rfl
    (by norm_num) (by norm_num)

/-- C5 amended.  The retry-triggering status set is provider-specific:
`UniversalLLMProvider` retries exactly `{429, 502, 503, 504}` (any other
non-200 status fails immediately with no retry), while `AliyunProvider`
retries exactly `{429, 503}` — 502 and 504 fail immediately there.  In
both providers an exhausted budget ends in failure (`None`). -/
theorem c5_retry_status_sets_amended (s m : Nat) (base : ℚ)
    (sys user : String) (h200 : ¬ s = 200) :
    ((s = 429 ∨ s = 503 ∨ s = 502 ∨ s = 504) →
      (uni_process_request m base (constResp s) sys user 0).1 = none ∧
      postsCount (uni_process_request m base (constResp s) sys user 0).2 = m + 1) ∧
    (¬ (s = 429 ∨ s = 503 ∨ s = 502 ∨ s = 504) →
      uni_process_request m base (constResp s) sys user 0 =
        (none, [.post sys user])) ∧
    ((s = 429 ∨ s = 503) →
      (aliyun_process_request m base (constResp s) sys user 0).1 = none ∧
      postsCount (aliyun_process_request m base (constResp s) sys user 0).2 = m + 1) ∧
    (¬ (s = 429 ∨ s = 503) →
      aliyun_process_request m base (constResp s) sys user 0 =
        (none, [.post sys user])) := by
  refine ⟨?_, ?_, ?_, ?_⟩
  · intro hret
    obtain ⟨h1, h2, _⟩ := uni_const_retryable base sys user s h200 hret m m 0 rfl
    exact ⟨h1, h2⟩
  · intro hnr
    exact uni_step_noretry m base (constResp s) sys user 0 s .null rfl h200 hnr
  · intro hret
    exact aliyun_const_retryable base sys user s h200 hret m m 0 rfl
  · intro hnr
    exact aliyun_step_noretry m base (constResp s) sys user 0 s .null rfl h200 hnr

/-- Witness for C5's amended status sets at a concrete input: status 503
with one retry allowed yields two universal-provider attempts. -/
theorem c5_retry_status_sets_witness :
    postsCount (uni_process_request 1 1 (constResp 503) "sys" "user" 0).2 = 2 :=
  ((c5_retry_status_sets_amended 503 1 1 "sys" "user" (by norm_num)).1
    (by norm_num)).2

/-- C8 counterexample.  The claim predicts that no HTTP request is issued
when the character-count token estimate exceeds the configured maximum;
`UniversalLLMProvider.process_request` performs no token check at all and
issues an HTTP request for an input whose estimate (3) exceeds the
maximum (2). -/
theorem c8_no_guard_counterexample :
    (check_input_length "aaaaaaaaa" "" 2).1 = false ∧
    postsCount (uni_process_request 5 1 (constResp 500) "aaaaaaaaa" "" 0).2 = 1 := by
  refine ⟨rfl, ?_⟩
  rw [uni_step_noretry 5 1 (constResp 500) "aaaaaaaaa" "" 0 500 .null rfl
    (by norm_num) (by norm_num)]
  rfl

/-- C8 amended.  The character-count pre-flight guard exists only in the
round-2 script: `check_input_length` compares
`len(system) // 3 + len(user) // 3` with the configured maximum, and
`deepseek_request_async` returns `TokenLimitExceeded` with an empty
action trace (no HTTP request) when the estimate exceeds the maximum,
otherwise proceeding to the attempt loop.  The universal provider
dispatches without any such guard. -/
theorem c8_token_guard_amended (m : Nat) (base : ℚ) (maxTok : Nat)
    (ev : Nat → HttpEvent) (sys user : String) :
    check_input_length sys user maxTok =
      (decide (sys.length / 3 + user.length / 3 ≤ maxTok),
       sys.length / 3 + user.length / 3) ∧
    ((check_input_length sys user maxTok).1 = false →
      deepseek_request_async m base maxTok ev sys user =
        (.failure "TokenLimitExceeded" "输入token数超出限制", [])) ∧
    ((check_input_length sys user maxTok).1 = true →
      deepseek_request_async m base maxTok ev sys user =
        r2_attempt_loop m base ev sys user 0) := by
  refine ⟨rfl, ?_, ?_⟩ <;> intro h <;> simp [deepseek_request_async, h]

/-- Witness for C8's amended guard at a concrete input: a 9-character
system prompt against a maximum of 1 token is rejected with no HTTP
request. -/
theorem c8_token_guard_witness :
    deepseek_request_async 5 1 1 (constResp 200) "aaaaaaaaa" "" =
      (.failure "TokenLimitExceeded" "输入token数超出限制", []) :=
  (c8_token_guard_amended 5 1 1 (constResp 200) "aaaaaaaaa" "").2.1 rfl

end LLMBatch

